import Mathlib

/-!
Shallow embedding of the authentication/authorization core of the
fechas service (src/auth.py, src/main.py).

Database state is modelled as in-memory lists of rows; each operation
that opens a psycopg2 connection takes a Boolean `connOk` flag: `false`
means the connection (or the query) raises, which the corresponding
Python `except` clause handles as written.  Password hashing (bcrypt via
passlib) is external; functions take an abstract `pwdVerify` predicate
standing for `pwd_context.verify(plaintext, digest)`.  The JWT library
(jose) is external as well; it is modelled by a `Token` record carrying
its claim set, the key it was signed with, and a structural
well-formedness flag, with `jwt_decode` reproducing the observable
decode outcomes (malformed / bad signature / expired / ok).
-/

/-- A row of the `usuarios` table. -/
structure UserRow where
  id : Nat
  username : String
  hashed_password : String
  email : String
  activo : Bool
  ultimo_acceso : Option Nat
  deriving Repr, DecidableEq

/-- A row of the `fecha_bloqueo` table. -/
structure FechaRow where
  idCentro : Int
  centro : String
  fechab : Int
  deriving Repr, DecidableEq

/-- The database state: the two tables the endpoints touch. -/
structure Db where
  usuarios : List UserRow
  fechas : List FechaRow
  deriving Repr, DecidableEq

/-- Fallback value of the signing secret (src/auth.py line 14). -/
def SECRET_KEY : String := "tu-clave-jwt-super-secreta-cambiame"

/-- Token TTL in minutes (src/auth.py line 16). -/
def ACCESS_TOKEN_EXPIRE_MINUTES : Nat := 30

/-- JWT claim set actually used by the code: `sub` and `exp`
(expiry as a Unix timestamp in seconds). -/
structure JwtPayload where
  sub : Option String
  exp : Nat
  deriving Repr, DecidableEq

/-- An encoded token, modelled by what decoding can observe: the claim
set, the key it was signed with, and whether the three-segment encoding
is structurally intact. -/
structure Token where
  payload : JwtPayload
  signedWith : String
  wellFormed : Bool
  deriving Repr, DecidableEq

/-- Failure modes of the external jose `jwt.decode`; all are subclasses
of `JWTError` in the library. -/
inductive JwtError
  | malformed
  | invalidSignature
  | expired
  deriving Repr, DecidableEq

/-- Model of the external `jose.jwt.decode(token, key, algorithms)`:
rejects structurally broken tokens, then signature mismatch, then
expiry (the `exp` claim against the current time), else yields the
claim set. -/
def jwt_decode (tok : Token) (key : String) (now : Nat) : Except JwtError JwtPayload :=
  if !tok.wellFormed then .error .malformed
  else if tok.signedWith ≠ key then .error .invalidSignature
  else if tok.payload.exp ≤ now then .error .expired
  else .ok tok.payload

/-- Result of a FastAPI endpoint call as seen by the client.
`httpError` is a raised-and-propagated `HTTPException` (structured
status + detail); `errorJson` is the `return {"status": "error",
"message": ...}` branch of a blanket `except`, which FastAPI serializes
with HTTP status 200; the `ok`-style constructors are the 200 success
bodies. -/
inductive Resp
  | loginOk (access_token : Token) (token_type : String)
      (expires_in_minutes : Nat) (user : String)
  | ok (body : String)
  | errorJson (message : String)
  | httpError (status : Nat) (detail : String)
  deriving Repr, DecidableEq

/-- The HTTP status code a `Resp` is delivered with. -/
def Resp.status : Resp → Nat
  | .loginOk _ _ _ _ => 200
  | .ok _ => 200
  | .errorJson _ => 200
  | .httpError s _ => s

/-- Whether the response is a success body (not an error of either shape). -/
def Resp.isSuccess : Resp → Bool
  | .loginOk _ _ _ _ => true
  | .ok _ => true
  | _ => false

/-- Python `str()` of a caught starlette `HTTPException`, which prints
as `"{status_code}: {detail}"`. -/
def strHTTPException (status : Nat) (detail : String) : String :=
  toString status ++ ": " ++ detail

/-- Message produced by `str(e)` when the database connection itself
raises; its exact text is irrelevant to every claim. -/
def dbErrMsg : String := "could not connect to server"

/-- src/auth.py `get_user_from_db`: SELECT the first row matching the
username with `activo = TRUE`; any exception (connection failure
included) is caught and `None` is returned. -/
def get_user_from_db (connOk : Bool) (db : Db) (username : String) : Option UserRow :=
  if connOk then
    db.usuarios.find? (fun u => u.username == username && u.activo)
  else none

/-- src/auth.py `update_last_access`: UPDATE `ultimo_acceso` to the
current timestamp for the username; any exception is caught and
ignored, leaving the state unchanged. -/
def update_last_access (connOk : Bool) (db : Db) (now : Nat) (username : String) : Db :=
  if connOk then
    { db with usuarios := db.usuarios.map (fun u =>
        if u.username == username then { u with ultimo_acceso := some now } else u) }
  else db

/-- src/auth.py `create_access_token`: claim set `{sub, exp = now +
30 minutes}` signed with the server secret. The only caller passes
`{"sub": username}`. -/
def create_access_token (now : Nat) (sub : String) : Token :=
  { payload := { sub := some sub, exp := now + ACCESS_TOKEN_EXPIRE_MINUTES * 60 }
    signedWith := SECRET_KEY
    wellFormed := true }

/-- src/auth.py `verify_token`: decode the bearer token; any `JWTError`
(malformed, bad signature, expired alike) becomes 401 "Token inválido",
a missing `sub` claim becomes the same 401, and a subject that no
longer resolves to an active user row becomes 401 "Usuario no válido".
On success the username is the authenticated identity. -/
def verify_token (connOk : Bool) (db : Db) (now : Nat) (tok : Token) :
    Except (Nat × String) String :=
  match jwt_decode tok SECRET_KEY now with
  | .error _ => .error (401, "Token inválido")
  | .ok payload =>
    match payload.sub with
    | none => .error (401, "Token inválido")
    | some username =>
      match get_user_from_db connOk db username with
      | none => .error (401, "Usuario no válido")
      | some _ => .ok username

/-- src/auth.py `authenticate_user`: fetch the active user row; absent
row or password mismatch returns False (here `none`); on a match the
last-access timestamp is updated (its own connection, best-effort) and
the user row is returned.  `c1` is the lookup connection, `c2` the
update connection. -/
def authenticate_user (pwdVerify : String → String → Bool) (c1 c2 : Bool)
    (db : Db) (now : Nat) (username password : String) : Option UserRow × Db :=
  match get_user_from_db c1 db username with
  | none => (none, db)
  | some user =>
    if pwdVerify password user.hashed_password then
      (some user, update_last_access c2 db now username)
    else (none, db)

/-- src/main.py `login` (POST /login): authenticate, 401 "Credenciales
incorrectas" on failure, else mint a token for the username and return
the success body. -/
def login (pwdVerify : String → String → Bool) (c1 c2 : Bool)
    (db : Db) (now : Nat) (username password : String) : Resp × Db :=
  match authenticate_user pwdVerify c1 c2 db now username password with
  | (none, db') => (.httpError 401 "Credenciales incorrectas", db')
  | (some user, db') =>
      (.loginOk (create_access_token now user.username) "bearer" 30 user.username, db')

/-- src/main.py `cambiar_password` (PUT /usuarios/:username/password).
The 403 role check sits outside the try block and propagates; every
`raise HTTPException` inside the try block is caught by the blanket
`except Exception` and returned as a 200 error JSON.  A non-admin
caller must present the current password, checked against the stored
hash fetched without an `activo` filter; the UPDATE rowcount of zero
yields the (caught) 404.  No commit runs on the exception paths, so the
state is unchanged there. -/
def cambiar_password (pwdVerify : String → String → Bool) (hashPwd : String → String)
    (connOk : Bool) (db : Db) (current_user target : String)
    (password_actual password_nueva : String) : Resp × Db :=
  if current_user ≠ target ∧ current_user ≠ "admin" then
    (.httpError 403 "No tienes permisos para cambiar esta contraseña", db)
  else if !connOk then (.errorJson dbErrMsg, db)
  else
    let currentOk : Bool :=
      if current_user ≠ "admin" then
        match db.usuarios.find? (fun u => u.username == target) with
        | none => false
        | some u => pwdVerify password_actual u.hashed_password
      else true
    if !currentOk then
      (.errorJson (strHTTPException 400 "Contraseña actual incorrecta"), db)
    else
      let rowcount := (db.usuarios.filter (fun u => u.username == target)).length
      if rowcount = 0 then
        (.errorJson (strHTTPException 404 "Usuario no encontrado"), db)
      else
        (.ok "Contraseña actualizada",
         { db with usuarios := db.usuarios.map (fun u =>
             if u.username == target then { u with hashed_password := hashPwd password_nueva }
             else u) })

/-- src/main.py `cambiar_estado_usuario` (PUT /usuarios/:username/estado).
Outside the try block, in order: the admin-only role gate (403), then
the protection of the admin account against deactivation (400).  Inside
the try block the UPDATE sets `activo` for the username; a rowcount of
zero raises a 404 that the blanket `except` converts to a 200 error
JSON. -/
def cambiar_estado_usuario (connOk : Bool) (db : Db)
    (current_user target : String) (activo : Bool) : Resp × Db :=
  if current_user ≠ "admin" then
    (.httpError 403 "No tienes permisos para cambiar el estado de usuarios", db)
  else if target = "admin" ∧ !activo then
    (.httpError 400 "No puedes desactivar el usuario admin", db)
  else if !connOk then (.errorJson dbErrMsg, db)
  else
    let rowcount := (db.usuarios.filter (fun u => u.username == target)).length
    if rowcount = 0 then
      (.errorJson (strHTTPException 404 "Usuario no encontrado"), db)
    else
      (.ok (if activo then "Usuario activado" else "Usuario desactivado"),
       { db with usuarios := db.usuarios.map (fun u =>
           if u.username == target then { u with activo := activo } else u) })

/-- src/main.py `eliminar_usuario` (DELETE /usuarios/:username).
Outside the try block: the admin-only role gate (403), then the
protection of the admin account against deletion (400).  Inside the try
block the DELETE removes the rows for the username; a rowcount of zero
raises a 404 that the blanket `except` converts to a 200 error JSON. -/
def eliminar_usuario (connOk : Bool) (db : Db)
    (current_user target : String) : Resp × Db :=
  if current_user ≠ "admin" then
    (.httpError 403 "No tienes permisos para eliminar usuarios", db)
  else if target = "admin" then
    (.httpError 400 "No puedes eliminar el usuario admin", db)
  else if !connOk then (.errorJson dbErrMsg, db)
  else
    let rowcount := (db.usuarios.filter (fun u => u.username == target)).length
    if rowcount = 0 then
      (.errorJson (strHTTPException 404 "Usuario no encontrado"), db)
    else
      (.ok ("Usuario " ++ target ++ " eliminado"),
       { db with usuarios := db.usuarios.filter (fun u => !(u.username == target)) })

/-- src/main.py `mover_todas_fechas` handler body (PUT
/fechas-bloqueo/mover-todas): no role check of any kind; the UPDATE
overwrites `fechab` of every row of `fecha_bloqueo` with the supplied
date. -/
def mover_todas_fechas (connOk : Bool) (db : Db)
    (_current_user : String) (nueva_fecha : Int) : Resp × Db :=
  if !connOk then (.errorJson dbErrMsg, db)
  else
    (.ok ("Se movieron " ++ toString db.fechas.length ++ " fechas a "
          ++ toString nueva_fecha),
     { db with fechas := db.fechas.map (fun f => { f with fechab := nueva_fecha }) })

/-- The full PUT /fechas-bloqueo/mover-todas route: FastAPI first runs
the `verify_token` dependency (its own connection `cAuth`), propagating
its 401 on failure, then runs the handler body. -/
def mover_todas_endpoint (cAuth connOk : Bool) (db : Db) (now : Nat)
    (tok : Token) (nueva_fecha : Int) : Resp × Db :=
  match verify_token cAuth db now tok with
  | .error e => (.httpError e.1 e.2, db)
  | .ok user => mover_todas_fechas connOk db user nueva_fecha

/-! Concrete instances used by witnesses: a model of the bcrypt digest
relation (the only property the code relies on is that `verify`
compares a plaintext against a digest) and a small database seeded like
src/create_users.py. -/

/-- Model digest of a plaintext, standing for `pwd_context.hash`. -/
def modelHash (p : String) : String := "bcrypt$" ++ p

/-- Model of `pwd_context.verify plaintext digest`. -/
def modelVerify (p digest : String) : Bool := digest == modelHash p

/-- The seeded admin row (src/create_users.py). -/
def sampleAdmin : UserRow :=
  { id := 1, username := "admin", hashed_password := modelHash "admin123"
    email := "admin@empresa.com", activo := true, ultimo_acceso := none }

/-- The seeded regular user row (src/create_users.py). -/
def sampleUser : UserRow :=
  { id := 2, username := "usuario", hashed_password := modelHash "user456"
    email := "usuario@empresa.com", activo := true, ultimo_acceso := none }

/-- A deactivated copy of the regular user row. -/
def sampleUserInactive : UserRow := { sampleUser with activo := false }

/-- A small database state for witnesses. -/
def sampleDb : Db :=
  { usuarios := [sampleAdmin, sampleUser]
    fechas := [{ idCentro := 1, centro := "Centro A", fechab := 100 },
               { idCentro := 2, centro := "Centro B", fechab := 200 }] }

/-- A database state in which the regular user has been deactivated. -/
def sampleDbDeactivated : Db := { sampleDb with usuarios := [sampleAdmin, sampleUserInactive] }

/-- Setting `activo := true` on a row that is already active is the identity. -/
lemma UserRow.set_activo_true_of_activo (u : UserRow) (h : u.activo = true) :
    { u with activo := true } = u := by
  cases u
  simp_all

/-- Claim C1: for every active user whose stored hash matches password P,
authenticate_user succeeds and returns the user record, and the access
token minted for that username, verified before expiry against a state
in which the subject still resolves to an active row, yields back the
same identity. -/
theorem C1_authenticate_token_roundtrip (pwdVerify : String → String → Bool)
    (c2 : Bool) (db db' : Db) (now now' : Nat) (u : UserRow) (P : String)
    (hu : get_user_from_db true db u.username = some u)
    (hp : pwdVerify P u.hashed_password = true)
    (hlive : (get_user_from_db true db' u.username).isSome = true)
    (ht : now' < now + ACCESS_TOKEN_EXPIRE_MINUTES * 60) :
    (authenticate_user pwdVerify true c2 db now u.username P).1 = some u ∧
    verify_token true db' now' (create_access_token now u.username) = .ok u.username := by
  refine ⟨by simp [authenticate_user, hu, hp], ?_⟩
  obtain ⟨v, hv⟩ := Option.isSome_iff_exists.mp hlive
  simp [verify_token, jwt_decode, create_access_token, Nat.not_le.mpr ht, hv]

/-- Witness for C1 at the seeded database: the user "usuario" with
password "user456" at issue time 0, verified at time 10. -/
theorem C1_authenticate_token_roundtrip_witness :
    (authenticate_user modelVerify true true sampleDb 0 sampleUser.username "user456").1
      = some sampleUser ∧
    verify_token true sampleDb 10 (create_access_token 0 sampleUser.username)
      = .ok sampleUser.username :=
  C1_authenticate_token_roundtrip modelVerify true sampleDb sampleDb 0 10 sampleUser
    "user456" (by decide) (by decide) (by decide) (by decide)

/-- Claim C3: once every row for user U is inactive (or absent), any
previously issued token whose subject is U — still well formed,
correctly signed and unexpired — is rejected by verify_token with 401
"Usuario no válido": the active-only re-fetch finds no row, so
deactivation implicitly revokes all outstanding tokens. -/
theorem C3_deactivation_revokes_tokens (connOk : Bool) (db : Db) (now : Nat)
    (tok : Token) (U : String)
    (hwf : tok.wellFormed = true) (hsig : tok.signedWith = SECRET_KEY)
    (hsub : tok.payload.sub = some U) (hexp : now < tok.payload.exp)
    (hinactive : ∀ u ∈ db.usuarios, u.username = U → u.activo = false) :
    verify_token connOk db now tok = .error (401, "Usuario no válido") := by
  have hfind : db.usuarios.find? (fun u => u.username == U && u.activo) = none := by
    rw [List.find?_eq_none]
    intro u hu
    by_cases hname : u.username = U
    · simp [hname, hinactive u hu hname]
    · simp [hname]
  have hget : get_user_from_db connOk db U = none := by
    cases connOk <;> simp [get_user_from_db, hfind]
  simp [verify_token, jwt_decode, hwf, hsig, Nat.not_le.mpr hexp, hsub, hget]

/-- Witness for C3: the token issued for "usuario" at time 0, verified at
time 10 against the state where "usuario" has been deactivated. -/
theorem C3_deactivation_revokes_tokens_witness :
    verify_token true sampleDbDeactivated 10 (create_access_token 0 "usuario")
      = .error (401, "Usuario no válido") :=
  C3_deactivation_revokes_tokens true sampleDbDeactivated 10
    (create_access_token 0 "usuario") "usuario"
    (by decide) (by decide) (by decide) (by decide) (by decide)

/-- Claim C4: a login attempt with a username that resolves to no active
row and a login attempt with an existing active username but a wrong
password produce identical observable outcomes: the same 401 response
with the same "Credenciales incorrectas" message, and in both cases an
unchanged database. -/
theorem C4_login_indistinguishable (pwdVerify : String → String → Bool)
    (c2 c2' : Bool) (db : Db) (now now' : Nat) (u1 p1 u2 p2 : String) (v : UserRow)
    (h1 : get_user_from_db true db u1 = none)
    (h2 : get_user_from_db true db u2 = some v)
    (hp : pwdVerify p2 v.hashed_password = false) :
    login pwdVerify true c2 db now u1 p1 = (.httpError 401 "Credenciales incorrectas", db) ∧
    login pwdVerify true c2' db now' u2 p2 = (.httpError 401 "Credenciales incorrectas", db) ∧
    login pwdVerify true c2 db now u1 p1 = login pwdVerify true c2' db now' u2 p2 := by
  refine ⟨?_, ?_, ?_⟩ <;> simp [login, authenticate_user, h1, h2, hp]

/-- Witness for C4: unknown username "ghost" versus "usuario" with the
wrong password "nope" against the seeded database. -/
theorem C4_login_indistinguishable_witness :
    login modelVerify true true sampleDb 0 "ghost" "whatever"
      = (.httpError 401 "Credenciales incorrectas", sampleDb) ∧
    login modelVerify true true sampleDb 5 "usuario" "nope"
      = (.httpError 401 "Credenciales incorrectas", sampleDb) ∧
    login modelVerify true true sampleDb 0 "ghost" "whatever"
      = login modelVerify true true sampleDb 5 "usuario" "nope" :=
  C4_login_indistinguishable modelVerify true true sampleDb 0 5 "ghost" "whatever"
    "usuario" "nope" sampleUser (by decide) (by decide) (by decide)

/-- Claim C9: for every successful credential check, the last-access
update is best-effort: whether its own connection works or fails (`c2`
arbitrary, in particular `false`), authenticate_user still returns the
user row and the login endpoint still succeeds, issuing a token for the
user. -/
theorem C9_last_access_best_effort (pwdVerify : String → String → Bool)
    (c2 : Bool) (db : Db) (now : Nat) (u : UserRow) (P : String)
    (hu : get_user_from_db true db u.username = some u)
    (hp : pwdVerify P u.hashed_password = true) :
    (authenticate_user pwdVerify true c2 db now u.username P).1 = some u ∧
    (login pwdVerify true c2 db now u.username P).1
      = .loginOk (create_access_token now u.username) "bearer" 30 u.username := by
  constructor <;> simp [login, authenticate_user, hu, hp]

/-- Witness for C9: login of "usuario" with the correct password while
the last-access update connection fails. -/
theorem C9_last_access_best_effort_witness :
    (authenticate_user modelVerify true false sampleDb 0 sampleUser.username "user456").1
      = some sampleUser ∧
    (login modelVerify true false sampleDb 0 sampleUser.username "user456").1
      = .loginOk (create_access_token 0 sampleUser.username) "bearer" 30 sampleUser.username :=
  C9_last_access_best_effort modelVerify false sampleDb 0 sampleUser "user456"
    (by decide) (by decide)

deriving instance DecidableEq for Except

/-- An expired token for "usuario": well formed, correctly signed, exp in
the past relative to verification time 100. -/
def tokExpired : Token :=
  { payload := { sub := some "usuario", exp := 5 }
    signedWith := SECRET_KEY, wellFormed := true }

/-- A token for "usuario" signed with a different key. -/
def tokBadSig : Token :=
  { payload := { sub := some "usuario", exp := 10000 }
    signedWith := "otra-clave", wellFormed := true }

/-- A structurally broken token for "usuario". -/
def tokMalformed : Token :=
  { payload := { sub := some "usuario", exp := 10000 }
    signedWith := SECRET_KEY, wellFormed := false }

/-- Counterexample to claim C6: three tokens failing respectively by
expiry, by signature mismatch and by malformation are all rejected by
verify_token with one and the same outcome, 401 "Token inválido" — the
three failure modes are not distinguished in the rejection. -/
theorem C6_counterexample :
    jwt_decode tokExpired SECRET_KEY 100 = .error .expired ∧
    jwt_decode tokBadSig SECRET_KEY 100 = .error .invalidSignature ∧
    jwt_decode tokMalformed SECRET_KEY 100 = .error .malformed ∧
    verify_token true sampleDb 100 tokExpired = verify_token true sampleDb 100 tokBadSig ∧
    verify_token true sampleDb 100 tokBadSig = verify_token true sampleDb 100 tokMalformed ∧
    verify_token true sampleDb 100 tokExpired = .error (401, "Token inválido") := by
  decide

/-- Claim C6 as amended: token verification fails whenever decoding
fails — signature mismatch, expiry past the current time, or structural
invalidity — but the except clause of verify_token collapses every
`JWTError` into the single rejection 401 "Token inválido"; the three
failure modes exist at the decode layer yet produce one identical
observable outcome, not three distinct ones. -/
theorem C6_amended (connOk : Bool) (db : Db) (now : Nat) (tok : Token) (e : JwtError)
    (h : jwt_decode tok SECRET_KEY now = .error e) :
    verify_token connOk db now tok = .error (401, "Token inválido") := by
  simp [verify_token, h]

/-- Witness for the amended C6 at the expired token. -/
theorem C6_amended_witness :
    verify_token true sampleDb 100 tokExpired = .error (401, "Token inválido") :=
  C6_amended true sampleDb 100 tokExpired .expired (by decide)

/-- Claim C10: any authenticated identity — admin or not, there is no
role gate — is admitted to PUT /fechas-bloqueo/mover-todas, and the
call overwrites the fechab column of every row of fecha_bloqueo with
the single supplied date (all other columns preserved). -/
theorem C10_mover_todas_no_role_gate (cAuth : Bool) (db : Db) (now : Nat)
    (tok : Token) (user : String) (nueva : Int)
    (hauth : verify_token cAuth db now tok = .ok user) :
    (mover_todas_endpoint cAuth true db now tok nueva).1.isSuccess = true ∧
    (mover_todas_endpoint cAuth true db now tok nueva).2.fechas
      = db.fechas.map (fun f => { f with fechab := nueva }) ∧
    ∀ f ∈ (mover_todas_endpoint cAuth true db now tok nueva).2.fechas,
      f.fechab = nueva := by
  refine ⟨?_, ?_, ?_⟩
  · simp [mover_todas_endpoint, hauth, mover_todas_fechas, Resp.isSuccess]
  · simp [mover_todas_endpoint, hauth, mover_todas_fechas]
  · intro f hf
    simp [mover_todas_endpoint, hauth, mover_todas_fechas] at hf
    obtain ⟨g, _, hg⟩ := hf
    simp [← hg]

/-- Witness for C10: the non-admin identity "usuario", authenticated by
its freshly issued token, rewrites every blocked date to day 42. -/
theorem C10_mover_todas_no_role_gate_witness :
    (mover_todas_endpoint true true sampleDb 10 (create_access_token 0 "usuario") 42).1.isSuccess
      = true ∧
    (mover_todas_endpoint true true sampleDb 10 (create_access_token 0 "usuario") 42).2.fechas
      = sampleDb.fechas.map (fun f => { f with fechab := 42 }) ∧
    ∀ f ∈ (mover_todas_endpoint true true sampleDb 10 (create_access_token 0 "usuario") 42).2.fechas,
      f.fechab = 42 :=
  C10_mover_todas_no_role_gate true sampleDb 10 (create_access_token 0 "usuario")
    "usuario" 42 (by decide)

/-- Counterexample to claim C2: a non-admin caller deactivating "admin"
is rejected by the admin-only role gate (403), not by the unconditional
admin-protection denial (400) — the role gate is evaluated first, so
the protection check is not prior to it. -/
theorem C2_counterexample :
    (cambiar_estado_usuario true sampleDb "usuario" "admin" false).1
      = .httpError 403 "No tienes permisos para cambiar el estado de usuarios" ∧
    (cambiar_estado_usuario true sampleDb "usuario" "admin" false).1
      ≠ .httpError 400 "No puedes desactivar el usuario admin" ∧
    (eliminar_usuario true sampleDb "usuario" "admin").1
      = .httpError 403 "No tienes permisos para eliminar usuarios" ∧
    (eliminar_usuario true sampleDb "usuario" "admin").1
      ≠ .httpError 400 "No puedes eliminar el usuario admin" := by
  decide

/-- Claim C2 as amended: every deactivate and every delete targeting
"admin" is denied for every caller — non-admin callers by the role gate
(403), which is evaluated first, and the admin caller by the protection
check (400) — and leaves the database unchanged; moreover no call to
either endpoint, whatever the caller, target and flag, removes an
active "admin" row or flips it inactive, so the admin row is never
deactivated or deleted by any path. -/
theorem C2_amended (connOk : Bool) (db : Db) (caller target : String) (activo : Bool) :
    ((cambiar_estado_usuario connOk db caller "admin" false).1.isSuccess = false ∧
     (cambiar_estado_usuario connOk db caller "admin" false).2 = db) ∧
    ((eliminar_usuario connOk db caller "admin").1.isSuccess = false ∧
     (eliminar_usuario connOk db caller "admin").2 = db) ∧
    (∀ u ∈ db.usuarios, u.username = "admin" → u.activo = true →
      u ∈ (cambiar_estado_usuario connOk db caller target activo).2.usuarios ∧
      u ∈ (eliminar_usuario connOk db caller target).2.usuarios) := by
  refine ⟨?_, ?_, ?_⟩
  · by_cases hc : caller = "admin"
    · subst hc; simp [cambiar_estado_usuario, Resp.isSuccess]
    · simp [cambiar_estado_usuario, hc, Resp.isSuccess]
  · by_cases hc : caller = "admin"
    · subst hc; simp [eliminar_usuario, Resp.isSuccess]
    · simp [eliminar_usuario, hc, Resp.isSuccess]
  · intro u hu hname hact
    constructor
    · simp only [cambiar_estado_usuario]
      split_ifs with h1 h2 h3 h4 hmsg <;>
        first
          | exact hu
          | (refine List.mem_map.mpr ⟨u, hu, ?_⟩
             split_ifs with hb
             · have ht : target = "admin" := by
                 simp only [beq_iff_eq] at hb
                 rw [← hb, hname]
               have hactt : activo = true := by
                 rcases Bool.eq_false_or_eq_true activo with h | h
                 · exact h
                 · exact absurd ⟨ht, by simp [h]⟩ h2
               cases u
               simp_all
             · rfl)
    · simp only [eliminar_usuario]
      split_ifs with h1 h2 h3 h4
      · exact hu
      · exact hu
      · exact hu
      · exact hu
      · refine List.mem_filter.mpr ⟨hu, ?_⟩
        have hne : ¬(u.username = target) := by
          rw [hname]; exact fun hh => h2 hh.symm
        simp [hne]

/-- Witness for the amended C2: the admin caller attempting to
deactivate and to delete "admin" leaves the seeded database unchanged. -/
theorem C2_amended_witness :
    (cambiar_estado_usuario true sampleDb "admin" "admin" false).2 = sampleDb ∧
    (eliminar_usuario true sampleDb "admin" "admin").2 = sampleDb :=
  ⟨(C2_amended true sampleDb "admin" "usuario" false).1.2,
   (C2_amended true sampleDb "admin" "usuario" false).2.1.2⟩

/-- Claim C5, evaluated at the failing input: the non-admin user
"usuario" changing their own password with a wrong current password.
The HTTPException(400) raised inside the try block is caught by the
blanket except and returned as a 200 error JSON — not as an HTTP 400 —
while the stored hash is indeed left unchanged, so the old password
still authenticates afterwards. -/
theorem C5_wrong_current_password_swallowed :
    cambiar_password modelVerify modelHash true sampleDb "usuario" "usuario" "WRONG" "newpass"
      = (.errorJson "400: Contraseña actual incorrecta", sampleDb) ∧
    (cambiar_password modelVerify modelHash true sampleDb "usuario" "usuario"
        "WRONG" "newpass").1.status = 200 ∧
    (login modelVerify true true sampleDb 0 "usuario" "user456").1.isSuccess = true := by
  decide

/-- Counterexample to claim C7: with the database connection down and
the correct admin credentials, login reports 401 "Credenciales
incorrectas" — a database connectivity failure surfaced as a credential
error, not as a generic service error. -/
theorem C7_counterexample :
    login modelVerify false true sampleDb 0 "admin" "admin123"
      = (.httpError 401 "Credenciales incorrectas", sampleDb) := by
  decide

/-- Claim C7 as amended: a database connectivity failure is never
retried, but how it surfaces depends on the path: the user-management
and blocked-date handlers return the generic 200 error JSON, while in
login the failure is absorbed by get_user_from_db and surfaces as 401
"Credenciales incorrectas", and in token verification it surfaces as
401 "Usuario no válido" — credential and authentication errors
respectively. -/
theorem C7_amended (pwdVerify : String → String → Bool) (hashPwd : String → String)
    (c2 : Bool) (db : Db) (now : Nat) (username password : String)
    (tok : Token) (target : String) (activo : Bool) (fecha : Int) (pa pn : String)
    (hwf : tok.wellFormed = true) (hsig : tok.signedWith = SECRET_KEY)
    (hsub : tok.payload.sub = some username) (hexp : now < tok.payload.exp)
    (htarget : target ≠ "admin") :
    login pwdVerify false c2 db now username password
      = (.httpError 401 "Credenciales incorrectas", db) ∧
    verify_token false db now tok = .error (401, "Usuario no válido") ∧
    cambiar_estado_usuario false db "admin" target activo = (.errorJson dbErrMsg, db) ∧
    eliminar_usuario false db "admin" target = (.errorJson dbErrMsg, db) ∧
    cambiar_password pwdVerify hashPwd false db target target pa pn
      = (.errorJson dbErrMsg, db) ∧
    mover_todas_fechas false db username fecha = (.errorJson dbErrMsg, db) := by
  refine ⟨?_, ?_, ?_, ?_, ?_, ?_⟩
  · simp [login, authenticate_user, get_user_from_db]
  · simp [verify_token, jwt_decode, hwf, hsig, Nat.not_le.mpr hexp, hsub, get_user_from_db]
  · simp [cambiar_estado_usuario, htarget]
  · simp [eliminar_usuario, htarget]
  · simp [cambiar_password]
  · simp [mover_todas_fechas]

/-- Witness for the amended C7 at concrete inputs: the user "usuario"
with a fresh token, target "usuario", while every connection fails. -/
theorem C7_amended_witness :
    login modelVerify false true sampleDb 10 "usuario" "user456"
      = (.httpError 401 "Credenciales incorrectas", sampleDb) ∧
    verify_token false sampleDb 10 (create_access_token 0 "usuario")
      = .error (401, "Usuario no válido") ∧
    cambiar_estado_usuario false sampleDb "admin" "usuario" false
      = (.errorJson dbErrMsg, sampleDb) ∧
    eliminar_usuario false sampleDb "admin" "usuario" = (.errorJson dbErrMsg, sampleDb) ∧
    cambiar_password modelVerify modelHash false sampleDb "usuario" "usuario" "a" "b"
      = (.errorJson dbErrMsg, sampleDb) ∧
    mover_todas_fechas false sampleDb "usuario" 42 = (.errorJson dbErrMsg, sampleDb) :=
  C7_amended modelVerify modelHash true sampleDb 10 "usuario" "user456"
    (create_access_token 0 "usuario") "usuario" false 42 "a" "b"
    (by decide) (by decide) (by decide) (by decide) (by decide)

/-- Claim C8, evaluated at the failing input: the admin deleting the
nonexistent user "ghost", and the admin changing the password of
"ghost".  The HTTPException(404) raised inside the try block is caught
by the blanket except and returned as a 200 error JSON — the NotFound
error surfaces as a success-status response, not as an HTTP 404. -/
theorem C8_notfound_swallowed :
    eliminar_usuario true sampleDb "admin" "ghost"
      = (.errorJson "404: Usuario no encontrado", sampleDb) ∧
    (eliminar_usuario true sampleDb "admin" "ghost").1.status = 200 ∧
    cambiar_password modelVerify modelHash true sampleDb "admin" "ghost" "x" "y"
      = (.errorJson "404: Usuario no encontrado", sampleDb) ∧
    (cambiar_password modelVerify modelHash true sampleDb "admin" "ghost" "x" "y").1.status
      = 200 ∧
    cambiar_estado_usuario true sampleDb "admin" "ghost" false
      = (.errorJson "404: Usuario no encontrado", sampleDb) ∧
    (cambiar_estado_usuario true sampleDb "admin" "ghost" false).1.status = 200 := by
  decide
